import Mathlib

/-!
Verification of the Download Capture & Classification Engine of the
fiscal-portal automation (source: `testes.py`, class `FiscalBot`).

The Python code is shallowly embedded: pure helpers become Lean functions,
the filesystem / PDF / browser collaborators become explicit parameters
(records of functions describing what each primitive call would return),
and each `try/except` block is embedded by the corresponding case split on
the primitive's result.  Machine-level concerns (actual file bytes, real
time) are abstracted exactly where the Python code itself only observes
their results (listing names, reading sizes, move success/failure).
-/

/- ============================================================ -/
/- Character model for Python's str.upper / unicodedata          -/
/- ============================================================ -/

/-- Model of Python `str.upper`, character-wise, over the repertoire that
matters to this program: ASCII (via `Char.toUpper`, which uppercases
exactly the ASCII letters, as Python does on ASCII) plus the accented
Latin letters appearing in the configured rules.  Characters outside the
repertoire (combining marks, ordinal indicators such as U+00AA, digits,
punctuation, whitespace) have no uppercase mapping in Unicode and are
returned unchanged, as Python does. -/
def pyUpper (c : Char) : Char :=
  match c with
  | 'á' => 'Á' | 'à' => 'À' | 'â' => 'Â' | 'ã' => 'Ã' | 'ä' => 'Ä'
  | 'ç' => 'Ç'
  | 'é' => 'É' | 'ê' => 'Ê'
  | 'í' => 'Í'
  | 'ó' => 'Ó' | 'ô' => 'Ô' | 'õ' => 'Õ'
  | 'ú' => 'Ú' | 'ü' => 'Ü'
  | _ => c.toUpper

/-- Model of `unicodedata.normalize('NFKD', ·)` restricted to a single
character: its (compatibility) decomposition, per the Unicode character
database.  Precomposed accented Latin letters decompose to base letter
plus combining mark; the ordinal indicators U+00AA/U+00BA have the
compatibility decomposition <super> to the plain lowercase letter; every
other character in the repertoire decomposes to itself.  (Full-string
NFKD additionally reorders adjacent combining marks canonically; since
the program immediately deletes every combining mark, that reordering
cannot affect its output, so the character-wise model is faithful.) -/
def pyNFKD (c : Char) : List Char :=
  match c with
  | 'Á' => ['A', '\u0301'] | 'À' => ['A', '\u0300'] | 'Â' => ['A', '\u0302']
  | 'Ã' => ['A', '\u0303'] | 'Ä' => ['A', '\u0308']
  | 'Ç' => ['C', '\u0327']
  | 'É' => ['E', '\u0301'] | 'Ê' => ['E', '\u0302']
  | 'Í' => ['I', '\u0301']
  | 'Ó' => ['O', '\u0301'] | 'Ô' => ['O', '\u0302'] | 'Õ' => ['O', '\u0303']
  | 'Ú' => ['U', '\u0301'] | 'Ü' => ['U', '\u0308']
  | 'á' => ['a', '\u0301'] | 'à' => ['a', '\u0300'] | 'â' => ['a', '\u0302']
  | 'ã' => ['a', '\u0303'] | 'ä' => ['a', '\u0308']
  | 'ç' => ['c', '\u0327']
  | 'é' => ['e', '\u0301'] | 'ê' => ['e', '\u0302']
  | 'í' => ['i', '\u0301']
  | 'ó' => ['o', '\u0301'] | 'ô' => ['o', '\u0302'] | 'õ' => ['o', '\u0303']
  | 'ú' => ['u', '\u0301'] | 'ü' => ['u', '\u0308']
  | 'ª' => ['a']
  | 'º' => ['o']
  | _ => [c]

/-- Model of `unicodedata.combining(c) != 0`: true exactly for the
combining diacritical marks of the repertoire. -/
def pyCombining (c : Char) : Bool :=
  c == '\u0300' || c == '\u0301' || c == '\u0302' || c == '\u0303' ||
  c == '\u0308' || c == '\u0327'

/-- NFKD of a list of characters: concatenation of the per-character
decompositions. -/
def nfkdLista : List Char → List Char
  | [] => []
  | c :: resto => pyNFKD c ++ nfkdLista resto

/- ============================================================ -/
/- FiscalBot._normalizar_texto                                   -/
/- ============================================================ -/

/-- Embedding of `FiscalBot._normalizar_texto` on a string argument:
`if not texto: return ""` then uppercase, NFKD-decompose, and keep only
the non-combining characters. -/
def normalizar_texto (texto : String) : String :=
  if texto = "" then ""
  else
    let maiusculo := texto.data.map pyUpper
    let nfkd_form := nfkdLista maiusculo
    String.mk (nfkd_form.filter (fun c => !pyCombining c))

/-- Embedding of `FiscalBot._normalizar_texto` including the dynamic
`None` argument case: `if not texto` is also taken for `None`. -/
def normalizar_texto_py : Option String → String
  | none => ""
  | some t => normalizar_texto t

/-- The per-character action of one normalization pass: uppercase, NFKD,
drop combining marks. -/
def charNorm (c : Char) : List Char :=
  (pyNFKD (pyUpper c)).filter (fun d => !pyCombining d)

/-- The character list produced by one normalization pass on a character
list. -/
def saidaNorm (l : List Char) : List Char :=
  (nfkdLista (l.map pyUpper)).filter (fun c => !pyCombining c)

/- ============================================================ -/
/- Compact form and substring containment                        -/
/- ============================================================ -/

/-- Embedding of `.replace(" ", "")`: replacing every occurrence of the
one-character string `" "` by the empty string deletes exactly the
U+0020 space characters. -/
def semEspacos (s : String) : String :=
  String.mk (s.data.filter (fun c => c != ' '))

/-- Modelled from the spec: "every whitespace character (spaces, tabs,
newlines, and all other whitespace)".  Whitespace is taken as Python
defines it for text (`str.isspace` / `str.split`): the ASCII control
whitespace U+0009 to U+000D, the separator controls U+001C to U+001F,
space, NEL U+0085, NBSP U+00A0, OGHAM SPACE MARK U+1680, the typographic
spaces U+2000 to U+200A, the line and paragraph separators U+2028 and
U+2029, NARROW NBSP U+202F, MMSP U+205F and IDEOGRAPHIC SPACE U+3000. -/
def espacoBranco (c : Char) : Bool :=
  decide ((0x09 ≤ c.toNat ∧ c.toNat ≤ 0x0D) ∨ (0x1C ≤ c.toNat ∧ c.toNat ≤ 0x1F) ∨
    c.toNat = 0x20 ∨ c.toNat = 0x85 ∨ c.toNat = 0xA0 ∨ c.toNat = 0x1680 ∨
    (0x2000 ≤ c.toNat ∧ c.toNat ≤ 0x200A) ∨
    c.toNat = 0x2028 ∨ c.toNat = 0x2029 ∨ c.toNat = 0x202F ∨ c.toNat = 0x205F ∨
    c.toNat = 0x3000)

/-- Modelled from the spec: the spec's compact form is the spaced form
with every whitespace character removed.  This definition follows the
spec's words (for comparison against the source's `semEspacos`). -/
def semEspacamentoTotal (s : String) : String :=
  String.mk (s.data.filter (fun c => !espacoBranco c))

/-- List-level containment test: does `agulha` occur as a contiguous
infix of the second list?  Embeds Python's `needle in haystack` on
strings (which is true for an empty needle). -/
def contemLista (agulha : List Char) : List Char → Bool
  | [] => agulha.isEmpty
  | c :: resto => agulha.isPrefixOf (c :: resto) || contemLista agulha resto

/-- Embedding of the Python string containment operator `in`. -/
def contem (agulha palheiro : String) : Bool :=
  contemLista agulha.data palheiro.data

/- ============================================================ -/
/- Classification rules and FiscalBot._classificar_renomear_e_mover:
   the pure classification part                                  -/
/- ============================================================ -/

/-- One classification rule: a plain keyword string (`isinstance(regra,
str)` branch) or a dict with a `"gatilho"` key (absent in the source is
modelled as `none`, matching `regra.get("gatilho", "")`) and an ordered
`"subcategorias"` mapping. -/
inductive Regra where
  | simples (palavra_chave : String)
  | hierarquica (gatilho : Option String) (subcategorias : List (String × String))
deriving DecidableEq

/-- The classification outcome: the relative destination path segments
(`caminho_relativo_pasta`) together with the label appended to the file
name (`categoria_final_para_nome`), or no match at all. -/
inductive Classificacao where
  | matched (caminho_relativo : List String) (categoria_final : String)
  | unmatched
deriving DecidableEq

/-- Normalized, space-stripped form of a rule keyword, as computed at
each comparison site in `_classificar_renomear_e_mover`. -/
def chaveCompacta (chave : String) : String :=
  semEspacos (normalizar_texto chave)

/-- Normalized, space-stripped trigger keyword:
`self._normalizar_texto(regra.get("gatilho", "")).replace(" ", "")`. -/
def gatilhoCompacto (gatilho : Option String) : String :=
  semEspacos (normalizar_texto (gatilho.getD ""))

/-- The subcategory loop: first subcategory (in declared order) whose
compact keyword is contained in the compact document text.  Note the
source performs `if sub_chave_normalizada in texto_pdf_sem_espacos:`
with no emptiness guard on the subcategory keyword. -/
def encontrarSub (textoSem : String) : List (String × String) → Option String
  | [] => none
  | (sub_cat, sub_palavra_chave) :: resto =>
    if contem (chaveCompacta sub_palavra_chave) textoSem then some sub_cat
    else encontrarSub textoSem resto

/-- The rule loop of `_classificar_renomear_e_mover`, over the compact
document text: hierarchical rules test subcategories first, then the
trigger (guarded by nonemptiness); simple rules test their keyword
(guarded by nonemptiness); the first match breaks out of the loop. -/
def classificarLoop (textoSem : String) : List (String × Regra) → Classificacao
  | [] => .unmatched
  | (categoria, Regra.hierarquica gatilho subcategorias) :: resto =>
    match encontrarSub textoSem subcategorias with
    | some sub_cat => .matched [categoria, sub_cat] sub_cat
    | none =>
      let g := gatilhoCompacto gatilho
      if (g != "") && contem g textoSem then .matched [categoria] categoria
      else classificarLoop textoSem resto
  | (categoria, Regra.simples regra) :: resto =>
    let k := chaveCompacta regra
    if (k != "") && contem k textoSem then .matched [categoria] categoria
    else classificarLoop textoSem resto

/-- The compact document text: `_normalizar_texto(texto_pdf)` followed
by `.replace(" ", "")`. -/
def textoCompacto (texto_pdf : String) : String :=
  semEspacos (normalizar_texto texto_pdf)

/-- The classification decision of `_classificar_renomear_e_mover`:
normalize the document text once, strip spaces, and run the rule loop. -/
def classificar (regras : List (String × Regra)) (texto_pdf : String) : Classificacao :=
  classificarLoop (textoCompacto texto_pdf) regras

/-- The effect of one iteration of the rule loop on a single rule, used
to characterize the loop as a first-match search. -/
def resultadoRegra (textoSem : String) : String × Regra → Classificacao
  | (categoria, Regra.hierarquica gatilho subcategorias) =>
    match encontrarSub textoSem subcategorias with
    | some sub_cat => .matched [categoria, sub_cat] sub_cat
    | none =>
      let g := gatilhoCompacto gatilho
      if (g != "") && contem g textoSem then .matched [categoria] categoria
      else .unmatched
  | (categoria, Regra.simples regra) =>
    let k := chaveCompacta regra
    if (k != "") && contem k textoSem then .matched [categoria] categoria
    else .unmatched

/-- The rule set configured in the source's `__main__` block
(`REGRAS_DE_CLASSIFICACAO`), in its declaration order. -/
def REGRAS_DE_CLASSIFICACAO : List (String × Regra) :=
  [("marketing_institucional", Regra.simples "despesas de propaganda e esforços de marketing"),
   ("seguro", Regra.simples "Seguro"),
   ("outras_despesas_administrativas", Regra.simples "ECAD"),
   ("telecom", Regra.simples "Remuneração Esforços Tech"),
   ("MKT-REG", Regra.hierarquica (some "Mídia Regional")
      [("MKT-REG_1", "Gestão Franqueador"),
       ("MKT-REG_5", "Gestão Individual"),
       ("MKT-REG_9", "REEMB ESF BOTIEXPERT")])]

/- ============================================================ -/
/- Path helpers (os.path.join / basename / splitext)             -/
/- ============================================================ -/

/-- Embedding of `os.path.join` on a directory and a relative
component: directory, separator, component. -/
def pathJoin (a b : String) : String :=
  a ++ "/" ++ b

/-- Join of a destination root with a list of relative path segments
(the source builds the same path via nested `os.path.join` calls). -/
def pathJoins (raiz : String) (segmentos : List String) : String :=
  segmentos.foldl pathJoin raiz

/-- Embedding of `os.path.basename`: everything after the last path
separator (the source runs on Windows paths, so both separators are
recognized). -/
def basename (p : String) : String :=
  String.mk (p.data.foldl (fun acc c => if c = '/' ∨ c = '\\' then [] else acc ++ [c]) [])

/-- Index of the last occurrence of a dot in a character list. -/
def ultimoPonto (l : List Char) : Option Nat :=
  match (l.reverse).findIdx? (fun c => c == '.') with
  | none => none
  | some j => some (l.length - 1 - j)

/-- Embedding of `os.path.splitext` on a bare file name (no directory
part): split at the last dot, unless every character before that dot is
itself a dot (CPython skips the leading dots of the name, so `".pdf"`
has no extension). -/
def splitextNome (nome : String) : String × String :=
  match ultimoPonto nome.data with
  | none => (nome, "")
  | some i =>
    if (nome.data.take i).all (fun c => c == '.') then (nome, "")
    else (String.mk (nome.data.take i), String.mk (nome.data.drop i))

/- ============================================================ -/
/- Filesystem collaborator model and relocation effects          -/
/- ============================================================ -/

/-- Abstract filesystem collaborator: for each primitive call the
program makes, whether it succeeds.  `mkdirsOk d` models
`os.makedirs(d, exist_ok=True)` (which is a no-op when the chain
exists); `moverOk o d` models `shutil.move(o, d)` with the literal
arguments the program passes (for the general bucket, `d` is the
destination directory).  A `false` answer stands for the call raising;
on a raise the primitive has not removed the source file. -/
structure Mundo where
  mkdirsOk : String → Bool
  moverOk : String → String → Bool

/-- Observable effects of one relocation routine: directories
successfully ensured, the completed move as (source, final resting
path), and the error messages printed by an `except` block.  When
`shutil.move` receives an existing directory as destination the file
lands inside it under its original base name, which is the final path
recorded here for the general-bucket move. -/
structure Efeitos where
  criadas : List String
  movido : Option (String × String)
  logErros : List String
deriving DecidableEq

/-- Embedding of `FiscalBot._mover_para_arquivos_gerais`: build the
`"arquivos gerais"` path under the final destination folder, ensure it
exists, move the file into it; the whole body is wrapped in
`try/except` that only prints, so the function always returns normally
(`Except.ok ()` models the Python `None` return; an `Except.error`
would model an uncaught exception reaching the caller). -/
def mover_para_arquivos_gerais (w : Mundo) (pasta_destino_final caminho_arquivo : String) :
    Except String Unit × Efeitos :=
  if w.mkdirsOk (pathJoin pasta_destino_final "arquivos gerais") then
    if w.moverOk caminho_arquivo (pathJoin pasta_destino_final "arquivos gerais") then
      (Except.ok (), ⟨[pathJoin pasta_destino_final "arquivos gerais"],
        some (caminho_arquivo,
          pathJoin (pathJoin pasta_destino_final "arquivos gerais") (basename caminho_arquivo)),
        []⟩)
    else
      (Except.ok (), ⟨[pathJoin pasta_destino_final "arquivos gerais"], none,
        ["ERRO ao mover arquivo para arquivos gerais"]⟩)
  else
    (Except.ok (), ⟨[], none, ["ERRO ao mover arquivo para arquivos gerais"]⟩)

/-- Embedding of `FiscalBot._classificar_renomear_e_mover`: classify
the (already extracted) text; on a match, ensure the destination chain
`pasta_destino_final/caminho_relativo_pasta`, rename to
`nome_base + "_" + categoria_final + extensao` and move, with the
`try/except` only printing on failure; on no match, delegate to the
general-bucket routine. -/
def classificar_renomear_e_mover (w : Mundo) (pasta_destino_final : String)
    (regras : List (String × Regra)) (caminho_arquivo texto_pdf : String) :
    Except String Unit × Efeitos :=
  match classificar regras texto_pdf with
  | Classificacao.matched caminho_relativo categoria_final =>
    if w.mkdirsOk (pathJoins pasta_destino_final caminho_relativo) then
      if w.moverOk caminho_arquivo
          (pathJoin (pathJoins pasta_destino_final caminho_relativo)
            ((splitextNome (basename caminho_arquivo)).1 ++ "_" ++ categoria_final ++
              (splitextNome (basename caminho_arquivo)).2)) then
        (Except.ok (), ⟨[pathJoins pasta_destino_final caminho_relativo],
          some (caminho_arquivo,
            pathJoin (pathJoins pasta_destino_final caminho_relativo)
              ((splitextNome (basename caminho_arquivo)).1 ++ "_" ++ categoria_final ++
                (splitextNome (basename caminho_arquivo)).2)),
          []⟩)
      else
        (Except.ok (), ⟨[pathJoins pasta_destino_final caminho_relativo], none,
          ["ERRO ao mover/renomear arquivo"]⟩)
    else
      (Except.ok (), ⟨[], none, ["ERRO ao mover/renomear arquivo"]⟩)
  | Classificacao.unmatched =>
    mover_para_arquivos_gerais w pasta_destino_final caminho_arquivo

/- ============================================================ -/
/- FiscalBot._extrair_texto_do_pdf and the per-row orchestration -/
/- ============================================================ -/

/-- Embedding of `FiscalBot._extrair_texto_do_pdf`: the external PDF
extractor either yields the concatenated page text or raises; the
`except` branch returns the empty string. -/
def extrair_texto_do_pdf (resultado_extrator : Except String String) : String :=
  match resultado_extrator with
  | Except.ok texto_completo => texto_completo
  | Except.error _ => ""

/-- Embedding of `FiscalBot._organizar_ultimo_arquivo_baixado`: if the
watcher found no file, do nothing; otherwise extract the text and, when
it is empty (unreadable file or a file with no text), move the file to
the general bucket; otherwise classify, rename and move. -/
def organizar_ultimo_arquivo_baixado (w : Mundo) (pasta_destino_final : String)
    (regras : List (String × Regra)) (arquivo_recente : Option String)
    (resultado_extrator : Except String String) : Except String Unit × Efeitos :=
  match arquivo_recente with
  | none => (Except.ok (), ⟨[], none, []⟩)
  | some arquivo =>
    let texto_pdf := extrair_texto_do_pdf resultado_extrator
    if texto_pdf = "" then mover_para_arquivos_gerais w pasta_destino_final arquivo
    else classificar_renomear_e_mover w pasta_destino_final regras arquivo texto_pdf

/-- Embedding of the per-row outcome handling of
`FiscalBot._processar_pagina_atual`: the row status starts as
`"Erro ao clicar"`, becomes `"Download iniciado"` right after the PDF
button is clicked (before the organization routine runs), and is the
value appended to the run report for the row; the organization routine
runs only when the click succeeded. -/
def processar_linha (clique_ok : Bool) (w : Mundo) (pasta_destino_final : String)
    (regras : List (String × Regra)) (arquivo_recente : Option String)
    (resultado_extrator : Except String String) :
    String × (Except String Unit × Efeitos) :=
  if clique_ok then
    ("Download iniciado",
     organizar_ultimo_arquivo_baixado w pasta_destino_final regras arquivo_recente resultado_extrator)
  else
    ("Erro ao clicar", (Except.ok (), ⟨[], none, []⟩))

/- ============================================================ -/
/- FiscalBot._esperar_e_encontrar_novo_download                  -/
/- ============================================================ -/

/-- Embedding of Python's `str.endswith`: suffix test on the character
lists. -/
def termina (s sufixo : String) : Bool :=
  sufixo.data.isSuffixOf s.data

/-- Staging-directory collaborator for the download watcher.
`listar i` is the result of `os.listdir` at the i-th observation
(observation 0 is the snapshot taken before the poll loop; observation
i is the re-listing in the i-th loop iteration); `Except.error` models
the listing raising, which the source does NOT catch — both `listdir`
calls sit outside the `try/except`.  `tamanho1 i a` and `tamanho2 i a`
are the two `os.path.getsize` reads performed for candidate `a` in
iteration i, with the settle sleep (1.5 s) between them; `none` models
the read raising `OSError`/`FileNotFoundError`, which the source does
catch. -/
structure AmbienteDownload where
  listar : Nat → Except String (List String)
  tamanho1 : Nat → String → Option Nat
  tamanho2 : Nat → String → Option Nat

/-- The inner candidate scan of one poll iteration: for each new name
that ends in `".pdf"` and not in `".crdownload"`, read the size twice;
on two equal nonzero reads return the full path, on an exception or an
unstable/zero size go on to the next candidate. -/
def procurarCandidatos (amb : AmbienteDownload) (pasta : String) (i : Nat) :
    List String → Option String
  | [] => none
  | arquivo :: resto =>
    if termina arquivo ".pdf" && !termina arquivo ".crdownload" then
      match amb.tamanho1 i arquivo, amb.tamanho2 i arquivo with
      | some tamanho_inicial, some tamanho_final =>
        if tamanho_inicial == tamanho_final && tamanho_final > 0 then
          some (pathJoin pasta arquivo)
        else procurarCandidatos amb pasta i resto
      | _, _ => procurarCandidatos amb pasta i resto
    else procurarCandidatos amb pasta i resto

/-- The poll loop of `_esperar_e_encontrar_novo_download`: with
`restante` seconds left, sleep one second (advancing to observation
`i`), re-list, diff against the pre-loop snapshot and scan the new
names; on no hit, keep polling until the timeout is exhausted.  A
listing failure propagates as an uncaught exception (the `listdir`
call is outside the `try/except`, which guards only the size reads). -/
def esperarLoop (amb : AmbienteDownload) (pasta : String) (arquivos_antes : List String) :
    Nat → Nat → Except String (Option String)
  | 0, _ => Except.ok none
  | restante + 1, i =>
    match amb.listar i with
    | Except.error e => Except.error e
    | Except.ok arquivos_depois =>
      match procurarCandidatos amb pasta i
          (arquivos_depois.filter (fun a => !arquivos_antes.contains a)) with
      | some caminho_completo => Except.ok (some caminho_completo)
      | none => esperarLoop amb pasta arquivos_antes restante (i + 1)

/-- Embedding of `FiscalBot._esperar_e_encontrar_novo_download`:
snapshot the staging directory (observation 0), then poll once per
second up to `timeout` times; return the first stable new pdf, or
`none` (the Python `None`) when the bound is exhausted.  The result is
`Except.error` when one of the uncaught `os.listdir` calls raises; the
size reads are the only primitives the source guards. -/
def esperar_e_encontrar_novo_download (amb : AmbienteDownload) (pasta : String)
    (timeout : Nat := 30) : Except String (Option String) :=
  match amb.listar 0 with
  | Except.error e => Except.error e
  | Except.ok arquivos_antes => esperarLoop amb pasta arquivos_antes timeout 1

/-- Filesystem collaborator on which every primitive call succeeds. -/
def mundoTotal : Mundo := ⟨fun _ => true, fun _ _ => true⟩

/-- Filesystem collaborator on which every `shutil.move` call raises
(e.g., a destination name collision or a permission error). -/
def mundoSemMover : Mundo := ⟨fun _ => true, fun _ _ => false⟩

/-- A concrete staging-directory history with no listing failures:
empty before the trigger, then one finished pdf and one in-progress
partial download, both sized 1000 bytes on both reads. -/
def ambExemplo : AmbienteDownload :=
  ⟨fun i => Except.ok (if i = 0 then [] else ["report.pdf", "report.pdf.crdownload"]),
   fun _ _ => some 1000,
   fun _ _ => some 1000⟩

/-- A staging directory whose every listing raises (e.g., the staging
directory was removed or permissions were revoked mid-run). -/
def ambListagemFalha : AmbienteDownload :=
  ⟨fun _ => Except.error "PermissionError", fun _ _ => none, fun _ _ => none⟩

/- ============================================================ -/
/- Helper lemmas on the classification loop                      -/
/- ============================================================ -/

/-- One step of the rule loop is exactly the single-rule result,
falling through to the rest of the rules only on `unmatched`. -/
theorem classificarLoop_cons (T : String) (r : String × Regra) (resto : List (String × Regra)) :
    classificarLoop T (r :: resto) =
      if resultadoRegra T r = Classificacao.unmatched then classificarLoop T resto
      else resultadoRegra T r := by
  obtain ⟨categoria, regra⟩ := r
  cases regra with
  | simples chave =>
    by_cases hc : ((chaveCompacta chave != "") && contem (chaveCompacta chave) T) = true
    · simp [classificarLoop, resultadoRegra, hc]
    · simp [classificarLoop, resultadoRegra, hc]
  | hierarquica gatilho subs =>
    cases h : encontrarSub T subs with
    | some s => simp [classificarLoop, resultadoRegra, h]
    | none =>
      by_cases hg : ((gatilhoCompacto gatilho != "") && contem (gatilhoCompacto gatilho) T) = true
      · simp [classificarLoop, resultadoRegra, h, hg]
      · simp [classificarLoop, resultadoRegra, h, hg]

/-- The subcategory loop is the first-match search over the declared
subcategory order. -/
theorem encontrarSub_eq_find (T : String) (subs : List (String × String)) :
    encontrarSub T subs =
      (subs.find? (fun p => contem (chaveCompacta p.2) T)).map Prod.fst := by
  induction subs with
  | nil => rfl
  | cons p resto ih =>
    obtain ⟨s, k⟩ := p
    by_cases h : contem (chaveCompacta k) T = true
    · simp [encontrarSub, List.find?, h]
    · simp only [encontrarSub, List.find?, h, Bool.false_eq_true, if_false]
      rw [ih]

/-- The rule loop is the first-match search over the declared rule
order, yielding `unmatched` only when every rule yields `unmatched`. -/
theorem classificarLoop_eq_primeira (T : String) (regras : List (String × Regra)) :
    classificarLoop T regras =
      ((regras.map (resultadoRegra T)).find?
          (fun c => decide (c ≠ Classificacao.unmatched))).getD Classificacao.unmatched := by
  induction regras with
  | nil => rfl
  | cons r resto ih =>
    rw [classificarLoop_cons, List.map_cons]
    by_cases h : resultadoRegra T r = Classificacao.unmatched
    · rw [if_pos h]
      simp [List.find?, h, ih]
    · rw [if_neg h]
      simp [List.find?, h]

/-- The empty needle is contained in every string, as in Python's
`"" in s`. -/
theorem contem_vazio (s : String) : contem "" s = true := by
  unfold contem
  cases s.data with
  | nil => rfl
  | cons c l => simp [contemLista, List.isPrefixOf]

/-- Claim C1 (counterexample): the claim states that a hierarchical
rule's subcategory keyword that normalizes to the empty string matches
no document; but the source tests subcategory keywords with a bare
`in`, without the nonemptiness guard used for triggers and simple
keywords, so an empty subcategory keyword matches every document — here
a rule set whose only keyword is the empty subcategory keyword matches
the document `"X"`. -/
theorem claim_C1_counterexample :
    classificar [("C", Regra.hierarquica none [("S", "")])] "X" =
      Classificacao.matched ["C", "S"] "S" ∧
    chaveCompacta "" = "" := by
  decide

/-- Claim C1 (amended): a simple rule's keyword or a hierarchical
rule's trigger that normalizes to the empty compact string never
matches (the rule is skipped), but a hierarchical rule's subcategory
keyword that normalizes to the empty compact string matches every
document and classifies it as that subcategory. -/
theorem claim_C1_amended :
    (∀ (T categoria chave : String) (resto : List (String × Regra)),
        chaveCompacta chave = "" →
        classificarLoop T ((categoria, Regra.simples chave) :: resto) =
          classificarLoop T resto) ∧
    (∀ (T categoria : String) (gatilho : Option String) (subs : List (String × String))
        (resto : List (String × Regra)),
        gatilhoCompacto gatilho = "" → encontrarSub T subs = none →
        classificarLoop T ((categoria, Regra.hierarquica gatilho subs) :: resto) =
          classificarLoop T resto) ∧
    (∀ (T categoria sub_cat chave : String) (gatilho : Option String)
        (subs : List (String × String)) (resto : List (String × Regra)),
        chaveCompacta chave = "" →
        classificarLoop T
            ((categoria, Regra.hierarquica gatilho ((sub_cat, chave) :: subs)) :: resto) =
          Classificacao.matched [categoria, sub_cat] sub_cat) := by
  refine ⟨?_, ?_, ?_⟩
  · intro T categoria chave resto h
    simp [classificarLoop, h]
  · intro T categoria gatilho subs resto hg hs
    simp [classificarLoop, hs, hg]
  · intro T categoria sub_cat chave gatilho subs resto h
    simp [classificarLoop, encontrarSub, h, contem_vazio]

/-- Witness for the amended C1, at concrete rule sets: the empty simple
keyword and the empty trigger are skipped, and a subcategory keyword
normalizing to empty (here a lone space) matches the document `"X"`. -/
theorem claim_C1_amended_witness :
    classificarLoop "X" [("C", Regra.simples "")] = classificarLoop "X" [] ∧
    classificarLoop "X" [("C", Regra.hierarquica none [])] = classificarLoop "X" [] ∧
    classificarLoop "X" [("C", Regra.hierarquica none [("S", " ")])] =
      Classificacao.matched ["C", "S"] "S" :=
  ⟨claim_C1_amended.1 "X" "C" "" [] (by decide),
   claim_C1_amended.2.1 "X" "C" none [] [] (by decide) (by decide),
   claim_C1_amended.2.2 "X" "C" "S" " " none [] [] (by decide)⟩

/-- Claim C2 (counterexample): the compact form used for matching is
the spaced normalized form with only the U+0020 space characters
removed, not with every whitespace character removed — on the document
text with an embedded tab the two disagree, the code keeping the tab. -/
theorem claim_C2_counterexample :
    semEspacos (normalizar_texto "a\tb") ≠ semEspacamentoTotal (normalizar_texto "a\tb") ∧
    semEspacos (normalizar_texto "a\tb") = "A\tB" := by
  decide

/-- Claim C2 (amended): classification compares keywords and document
text in the compact form obtained by removing the space characters
(U+0020) from the spaced normalized form; this coincides with removing
every whitespace character exactly when the spaced form contains no
whitespace other than plain spaces. -/
theorem claim_C2_amended :
    (∀ (regras : List (String × Regra)) (texto_pdf : String),
        classificar regras texto_pdf =
          classificarLoop (semEspacos (normalizar_texto texto_pdf)) regras) ∧
    (∀ texto : String,
        semEspacos (normalizar_texto texto) = semEspacamentoTotal (normalizar_texto texto) ↔
          ∀ c ∈ (normalizar_texto texto).data, espacoBranco c = true → c = ' ') := by
  constructor
  · intro regras texto_pdf
    rfl
  · intro texto
    constructor
    · intro heq c hc hw
      by_contra hne
      have hdados : (normalizar_texto texto).data.filter (fun c => c != ' ') =
          (normalizar_texto texto).data.filter (fun c => !espacoBranco c) :=
        congrArg String.data heq
      have hmem : c ∈ (normalizar_texto texto).data.filter (fun c => c != ' ') :=
        List.mem_filter.mpr ⟨hc, by simpa using hne⟩
      rw [hdados] at hmem
      have hq := (List.mem_filter.mp hmem).2
      rw [hw] at hq
      simp at hq
    · intro h
      unfold semEspacos semEspacamentoTotal
      congr 1
      apply List.filter_congr
      intro c hc
      by_cases hsp : c = ' '
      · subst hsp
        decide
      · have hw : espacoBranco c = false := by
          by_contra hx
          exact hsp (h c hc (by simpa using hx))
        simp [hw, hsp]

/-- Witness for the amended C2, on the character-spaced keyword
scenario: the normalized form of the document contains no whitespace
beyond spaces, so the code's compact form agrees with full whitespace
removal. -/
theorem claim_C2_amended_witness :
    semEspacos (normalizar_texto "E C A D charges apply") =
      semEspacamentoTotal (normalizar_texto "E C A D charges apply") :=
  (claim_C2_amended.2 "E C A D charges apply").mpr (by decide)

/-- Claim C4 (confirmed): within a hierarchical rule the subcategories
are tested before the rule's own trigger in declared order — the loop's
value is the first subcategory whose compact keyword is contained in
the compact document text, and only when none matches is the trigger
consulted; concretely, the configured rule set classifies a document
containing the subcategory keyword but not the trigger phrase as the
subcategory. -/
theorem claim_C4_subcategorias_primeiro :
    (∀ (T categoria : String) (gatilho : Option String) (subs : List (String × String))
        (resto : List (String × Regra)),
        classificarLoop T ((categoria, Regra.hierarquica gatilho subs) :: resto) =
          ((subs.find? (fun p => contem (chaveCompacta p.2) T)).map
              (fun p => Classificacao.matched [categoria, p.1] p.1)).getD
            (if (gatilhoCompacto gatilho != "") && contem (gatilhoCompacto gatilho) T then
              Classificacao.matched [categoria] categoria
            else classificarLoop T resto)) ∧
    (classificar REGRAS_DE_CLASSIFICACAO "NOTA DE DEBITO Gestão Franqueador" =
        Classificacao.matched ["MKT-REG", "MKT-REG_1"] "MKT-REG_1" ∧
      contem (gatilhoCompacto (some "Mídia Regional"))
        (textoCompacto "NOTA DE DEBITO Gestão Franqueador") = false) := by
  constructor
  · intro T categoria gatilho subs resto
    simp only [classificarLoop, encontrarSub_eq_find]
    cases h : subs.find? (fun p => contem (chaveCompacta p.2) T) with
    | none => simp [h]
    | some p => simp [h]
  · exact ⟨by decide, by decide⟩

/-- Claim C5 (confirmed): rules are evaluated in declaration order and
the classification is the first rule's non-`unmatched` result, with
`unmatched` exactly when every rule fails; concretely, a document
matching both the earlier-declared simple rule `"seguro"` and the
later hierarchical rule's subcategory classifies as `"seguro"`. -/
theorem claim_C5_ordem_declaracao :
    (∀ (regras : List (String × Regra)) (texto_pdf : String),
        classificar regras texto_pdf =
          ((regras.map (resultadoRegra (textoCompacto texto_pdf))).find?
              (fun c => decide (c ≠ Classificacao.unmatched))).getD
            Classificacao.unmatched) ∧
    classificar REGRAS_DE_CLASSIFICACAO "Seguro Gestão Franqueador" =
      Classificacao.matched ["seguro"] "seguro" ∧
    resultadoRegra (textoCompacto "Seguro Gestão Franqueador")
      ("MKT-REG", Regra.hierarquica (some "Mídia Regional")
        [("MKT-REG_1", "Gestão Franqueador"), ("MKT-REG_5", "Gestão Individual"),
         ("MKT-REG_9", "REEMB ESF BOTIEXPERT")]) =
      Classificacao.matched ["MKT-REG", "MKT-REG_1"] "MKT-REG_1" := by
  refine ⟨?_, by decide, by decide⟩
  intro regras texto_pdf
  exact classificarLoop_eq_primeira (textoCompacto texto_pdf) regras

/-- Claim C3 (counterexample): the claim states a failing move is
surfaced to the caller as a distinct row-fatal error; but the source
wraps both move sites in `try/except` blocks that only print, so on a
world where every move raises the call returns exactly what it returns
on success — the caller cannot observe the failure, and the file stays
unmoved. -/
theorem claim_C3_counterexample :
    (classificar_renomear_e_mover mundoSemMover "dest" REGRAS_DE_CLASSIFICACAO
        "temp/nd_123.pdf" "Seguro").1 =
      (classificar_renomear_e_mover mundoTotal "dest" REGRAS_DE_CLASSIFICACAO
        "temp/nd_123.pdf" "Seguro").1 ∧
    (classificar_renomear_e_mover mundoSemMover "dest" REGRAS_DE_CLASSIFICACAO
        "temp/nd_123.pdf" "Seguro").2.movido = none ∧
    (classificar_renomear_e_mover mundoTotal "dest" REGRAS_DE_CLASSIFICACAO
        "temp/nd_123.pdf" "Seguro").2.movido =
      some ("temp/nd_123.pdf", "dest/seguro/nd_123_seguro.pdf") :=
  ⟨rfl, rfl, rfl⟩

/-- Claim C3 (amended): a failing move is caught inside the organizer
and only logged — the call always returns normally to its caller, for
classified and unclassified relocations alike; when every move raises,
no file is recorded as moved (the source file is only relinquished by a
successful move) and an error line is logged. -/
theorem claim_C3_amended :
    (∀ (w : Mundo) (pasta : String) (regras : List (String × Regra)) (caminho texto : String),
        (classificar_renomear_e_mover w pasta regras caminho texto).1 = Except.ok ()) ∧
    (∀ (w : Mundo) (pasta caminho : String),
        (mover_para_arquivos_gerais w pasta caminho).1 = Except.ok ()) ∧
    (∀ (mk : String → Bool) (pasta : String) (regras : List (String × Regra))
        (caminho texto : String),
        (classificar_renomear_e_mover ⟨mk, fun _ _ => false⟩ pasta regras caminho texto).2.movido =
            none ∧
        (classificar_renomear_e_mover ⟨mk, fun _ _ => false⟩ pasta regras
            caminho texto).2.logErros ≠ []) := by
  refine ⟨?_, ?_, ?_⟩
  · intro w pasta regras caminho texto
    unfold classificar_renomear_e_mover
    cases classificar regras texto with
    | matched rel cat =>
      dsimp only
      cases w.mkdirsOk (pathJoins pasta rel)
      · rfl
      · cases w.moverOk caminho
            (pathJoin (pathJoins pasta rel)
              ((splitextNome (basename caminho)).1 ++ "_" ++ cat ++
                (splitextNome (basename caminho)).2)) <;> rfl
    | unmatched =>
      dsimp only
      unfold mover_para_arquivos_gerais
      cases w.mkdirsOk (pathJoin pasta "arquivos gerais")
      · rfl
      · cases w.moverOk caminho (pathJoin pasta "arquivos gerais") <;> rfl
  · intro w pasta caminho
    unfold mover_para_arquivos_gerais
    cases w.mkdirsOk (pathJoin pasta "arquivos gerais")
    · rfl
    · cases w.moverOk caminho (pathJoin pasta "arquivos gerais") <;> rfl
  · intro mk pasta regras caminho texto
    unfold classificar_renomear_e_mover
    cases classificar regras texto with
    | matched rel cat =>
      dsimp only
      cases mk (pathJoins pasta rel) <;> exact ⟨rfl, by simp⟩
    | unmatched =>
      dsimp only
      unfold mover_para_arquivos_gerais
      split
      next hmk =>
        split
        next hmv => exact Bool.noConfusion hmv
        next hmv => exact ⟨rfl, by simp⟩
      next hmk => exact ⟨rfl, by simp⟩

/-- Claim C7 (counterexample): the claim states the row's outcome
records the extraction failure; but the row status is fixed to
`"Download iniciado"` as soon as the PDF button click succeeds, before
the organization routine runs, so a row whose extraction fails records
exactly the same outcome as a row whose extraction succeeds — the
failure is never recorded. -/
theorem claim_C7_counterexample :
    (processar_linha true mundoTotal "dest" REGRAS_DE_CLASSIFICACAO (some "temp/nd_123.pdf")
        (Except.error "PDF corrompido")).1 = "Download iniciado" ∧
    (processar_linha true mundoTotal "dest" REGRAS_DE_CLASSIFICACAO (some "temp/nd_123.pdf")
        (Except.ok "Seguro")).1 = "Download iniciado" :=
  ⟨rfl, rfl⟩

/-- Claim C7 (amended): when text extraction fails the per-row pipeline
still relocates the staged file into the general bucket (the extractor
error is swallowed into an empty text, which routes the file to
`"arquivos gerais"` without attempting classification, and a move
failure would leave it in staging only logged, never deleted), but the
row's recorded outcome stays the generic `"Download iniciado"` status:
the extraction failure is only printed, not recorded. -/
theorem claim_C7_amended :
    ∀ (w : Mundo) (pasta : String) (regras : List (String × Regra)) (arquivo erro : String),
      processar_linha true w pasta regras (some arquivo) (Except.error erro) =
        ("Download iniciado", mover_para_arquivos_gerais w pasta arquivo) := by
  intro w pasta regras arquivo erro
  rfl

/-- Claim C8 (confirmed): on a match the file is moved to the
destination root joined with the destination segments (that directory
chain being created), renamed to the original base name with the
matched label appended and the original extension preserved; on no
match it is moved, name unchanged, into the `"arquivos gerais"` bucket
under the destination root (created if absent), and the unmatched
routing returns normally on every filesystem behaviour. -/
theorem claim_C8_realocacao :
    ∀ (raiz : String) (regras : List (String × Regra)) (caminho texto : String),
      (∀ (segmentos : List String) (categoria_final : String),
          classificar regras texto = Classificacao.matched segmentos categoria_final →
          classificar_renomear_e_mover mundoTotal raiz regras caminho texto =
            (Except.ok (),
             ⟨[pathJoins raiz segmentos],
              some (caminho,
                pathJoin (pathJoins raiz segmentos)
                  ((splitextNome (basename caminho)).1 ++ "_" ++ categoria_final ++
                    (splitextNome (basename caminho)).2)),
              []⟩)) ∧
      (classificar regras texto = Classificacao.unmatched →
          classificar_renomear_e_mover mundoTotal raiz regras caminho texto =
            (Except.ok (),
             ⟨[pathJoin raiz "arquivos gerais"],
              some (caminho, pathJoin (pathJoin raiz "arquivos gerais") (basename caminho)),
              []⟩)) ∧
      (∀ w : Mundo, classificar regras texto = Classificacao.unmatched →
          (classificar_renomear_e_mover w raiz regras caminho texto).1 = Except.ok ()) := by
  intro raiz regras caminho texto
  refine ⟨?_, ?_, ?_⟩
  · intro segmentos categoria_final h
    unfold classificar_renomear_e_mover
    rw [h]
    rfl
  · intro h
    unfold classificar_renomear_e_mover
    rw [h]
    rfl
  · intro w h
    unfold classificar_renomear_e_mover
    rw [h]
    unfold mover_para_arquivos_gerais
    cases w.mkdirsOk (pathJoin raiz "arquivos gerais")
    · rfl
    · cases w.moverOk caminho (pathJoin raiz "arquivos gerais") <;> rfl

/-- Witness for C8 at concrete inputs: a document matching the simple
rule `"seguro"` lands renamed under `dest/seguro`, and an unmatched
document lands under `dest/arquivos gerais` with its name unchanged. -/
theorem claim_C8_realocacao_witness :
    classificar_renomear_e_mover mundoTotal "dest" REGRAS_DE_CLASSIFICACAO
        "temp/nd_9.pdf" "Seguro" =
      (Except.ok (), ⟨["dest/seguro"],
        some ("temp/nd_9.pdf", "dest/seguro/nd_9_seguro.pdf"), []⟩) ∧
    classificar_renomear_e_mover mundoTotal "dest" REGRAS_DE_CLASSIFICACAO
        "temp/nd_9.pdf" "zzz" =
      (Except.ok (), ⟨["dest/arquivos gerais"],
        some ("temp/nd_9.pdf", "dest/arquivos gerais/nd_9.pdf"), []⟩) :=
  ⟨(claim_C8_realocacao "dest" REGRAS_DE_CLASSIFICACAO "temp/nd_9.pdf" "Seguro").1
      ["seguro"] "seguro" (by decide),
   (claim_C8_realocacao "dest" REGRAS_DE_CLASSIFICACAO "temp/nd_9.pdf" "zzz").2.1 (by decide)⟩

/-- Claim C10 (confirmed): a stable downloaded file whose extraction
yields the empty text is handled identically to one whose extraction
raises — both reduce to the general-bucket move, with classification
never attempted, so empty-text success and extraction failure are
indistinguishable at the pipeline boundary. -/
theorem claim_C10_texto_vazio :
    ∀ (w : Mundo) (pasta : String) (regras : List (String × Regra)) (arquivo erro : String),
      organizar_ultimo_arquivo_baixado w pasta regras (some arquivo) (Except.error erro) =
        organizar_ultimo_arquivo_baixado w pasta regras (some arquivo) (Except.ok "") ∧
      organizar_ultimo_arquivo_baixado w pasta regras (some arquivo) (Except.ok "") =
        mover_para_arquivos_gerais w pasta arquivo := by
  intro w pasta regras arquivo erro
  exact ⟨rfl, rfl⟩

/-- Soundness of the candidate scan: a returned path comes from a
listed candidate with the pdf extension, without the partial-download
suffix, and with two equal nonzero size reads. -/
theorem procurarCandidatos_spec (amb : AmbienteDownload) (pasta : String) (i : Nat)
    (candidatos : List String) (c : String)
    (h : procurarCandidatos amb pasta i candidatos = some c) :
    ∃ arquivo ∈ candidatos,
      c = pathJoin pasta arquivo ∧
      termina arquivo ".pdf" = true ∧ termina arquivo ".crdownload" = false ∧
      ∃ n, amb.tamanho1 i arquivo = some n ∧ amb.tamanho2 i arquivo = some n ∧ 0 < n := by
  induction candidatos with
  | nil => simp [procurarCandidatos] at h
  | cons a resto ih =>
    rw [procurarCandidatos] at h
    by_cases hext : (termina a ".pdf" && !termina a ".crdownload") = true
    · rw [if_pos hext] at h
      obtain ⟨hpdf, hcr⟩ := Bool.and_eq_true_iff.mp hext
      cases h1 : amb.tamanho1 i a with
      | none =>
        rw [h1] at h
        obtain ⟨arquivo, hm, hrest⟩ := ih h
        exact ⟨arquivo, List.mem_cons_of_mem a hm, hrest⟩
      | some t1 =>
        cases h2 : amb.tamanho2 i a with
        | none =>
          rw [h1, h2] at h
          obtain ⟨arquivo, hm, hrest⟩ := ih h
          exact ⟨arquivo, List.mem_cons_of_mem a hm, hrest⟩
        | some t2 =>
          rw [h1, h2] at h
          dsimp only at h
          by_cases hsz : (t1 == t2 && decide (t2 > 0)) = true
          · rw [if_pos hsz] at h
            obtain ⟨heq, hpos⟩ := Bool.and_eq_true_iff.mp hsz
            refine ⟨a, List.mem_cons_self a resto, ?_, hpdf, ?_, t2, ?_, h2, ?_⟩
            · exact (Option.some.injEq _ _ ▸ h).symm
            · simpa using hcr
            · rw [h1, beq_iff_eq.mp heq]
            · exact of_decide_eq_true hpos
          · rw [if_neg hsz] at h
            obtain ⟨arquivo, hm, hrest⟩ := ih h
            exact ⟨arquivo, List.mem_cons_of_mem a hm, hrest⟩
    · rw [if_neg hext] at h
      obtain ⟨arquivo, hm, hrest⟩ := ih h
      exact ⟨arquivo, List.mem_cons_of_mem a hm, hrest⟩

/-- Soundness of the poll loop: a successfully returned path comes
from a successful listing between the current observation and the
timeout bound, names a file absent from the pre-loop snapshot, and
satisfies the candidate conditions. -/
theorem esperarLoop_spec (amb : AmbienteDownload) (pasta : String) (antes : List String)
    (c : String) :
    ∀ restante i : Nat,
      esperarLoop amb pasta antes restante i = Except.ok (some c) →
      ∃ j arquivo depois, i ≤ j ∧ j < i + restante ∧
        amb.listar j = Except.ok depois ∧
        arquivo ∈ depois ∧ antes.contains arquivo = false ∧
        c = pathJoin pasta arquivo ∧
        termina arquivo ".pdf" = true ∧ termina arquivo ".crdownload" = false ∧
        ∃ n, amb.tamanho1 j arquivo = some n ∧ amb.tamanho2 j arquivo = some n ∧ 0 < n := by
  intro restante
  induction restante with
  | zero =>
    intro i h
    simp [esperarLoop] at h
  | succ r ih =>
    intro i h
    rw [esperarLoop] at h
    cases hl : amb.listar i with
    | error e =>
      rw [hl] at h
      simp at h
    | ok depois =>
      rw [hl] at h
      dsimp only at h
      cases hp : procurarCandidatos amb pasta i
          (depois.filter (fun a => !antes.contains a)) with
      | some c2 =>
        rw [hp] at h
        have hcc : c2 = c := by simpa using h
        obtain ⟨arquivo, hm, hc, hpdf, hcr, n, hn1, hn2, hn⟩ :=
          procurarCandidatos_spec amb pasta i _ c2 hp
        obtain ⟨hml, hma⟩ := List.mem_filter.mp hm
        refine ⟨i, arquivo, depois, Nat.le_refl i, by omega, hl, hml, ?_, ?_, hpdf, hcr,
          n, hn1, hn2, hn⟩
        · simpa using hma
        · rw [← hcc]
          exact hc
      | none =>
        rw [hp] at h
        obtain ⟨j, arquivo, depois2, hij, hjr, hrest⟩ := ih (i + 1) h
        exact ⟨j, arquivo, depois2, by omega, by omega, hrest⟩

/-- Totality of the poll loop under successful listings: when every
listing succeeds, the loop returns normally (no uncaught exception). -/
theorem esperarLoop_ok (amb : AmbienteDownload) (pasta : String) (antes : List String) :
    ∀ restante i : Nat, (∀ j, ∃ l, amb.listar j = Except.ok l) →
      ∃ r, esperarLoop amb pasta antes restante i = Except.ok r := by
  intro restante
  induction restante with
  | zero =>
    intro i _
    exact ⟨none, rfl⟩
  | succ r ih =>
    intro i h
    obtain ⟨l, hl⟩ := h i
    rw [esperarLoop, hl]
    dsimp only
    cases hp : procurarCandidatos amb pasta i (l.filter (fun a => !antes.contains a)) with
    | some c => exact ⟨some c, rfl⟩
    | none => exact ih (i + 1) h

/-- Claim C6 (counterexample): the claim states the watcher never
throws; but both `os.listdir` calls sit outside the `try/except`
(which guards only the two size reads), so a staging-directory access
error propagates out of the watcher as an uncaught exception rather
than producing the `NotFound` result. -/
theorem claim_C6_counterexample :
    esperar_e_encontrar_novo_download ambListagemFalha "staging" 30 =
      Except.error "PermissionError" := rfl

/-- Claim C6 (amended): whenever the download watcher returns a file,
that file appeared in a successful listing within the timeout bound,
was not in the pre-trigger snapshot, ends in the expected `.pdf`
extension, does not carry the `.crdownload` partial-download suffix,
and its two size reads (one settle interval apart) were equal and
nonzero; when every directory listing succeeds the watcher returns
normally — a qualifying file or the Python `None` — with size-read
exceptions caught; but a failing `os.listdir`, being outside the
`try/except`, propagates to the caller. -/
theorem claim_C6_watcher :
    (∀ (amb : AmbienteDownload) (pasta : String) (timeout : Nat) (c : String),
        esperar_e_encontrar_novo_download amb pasta timeout = Except.ok (some c) →
        ∃ i arquivo antes depois, 1 ≤ i ∧ i ≤ timeout ∧
          amb.listar 0 = Except.ok antes ∧ amb.listar i = Except.ok depois ∧
          arquivo ∈ depois ∧ antes.contains arquivo = false ∧
          c = pathJoin pasta arquivo ∧
          termina arquivo ".pdf" = true ∧ termina arquivo ".crdownload" = false ∧
          ∃ n, amb.tamanho1 i arquivo = some n ∧ amb.tamanho2 i arquivo = some n ∧ 0 < n) ∧
    (∀ (amb : AmbienteDownload) (pasta : String) (timeout : Nat),
        (∀ j, ∃ l, amb.listar j = Except.ok l) →
        ∃ r, esperar_e_encontrar_novo_download amb pasta timeout = Except.ok r) := by
  constructor
  · intro amb pasta timeout c h
    unfold esperar_e_encontrar_novo_download at h
    cases hl0 : amb.listar 0 with
    | error e =>
      rw [hl0] at h
      simp at h
    | ok antes =>
      rw [hl0] at h
      dsimp only at h
      obtain ⟨j, arquivo, depois, h1j, hjt, hld, hrest⟩ :=
        esperarLoop_spec amb pasta antes c timeout 1 h
      exact ⟨j, arquivo, antes, depois, h1j, by omega, rfl, hld, hrest⟩
  · intro amb pasta timeout h
    obtain ⟨l0, hl0⟩ := h 0
    unfold esperar_e_encontrar_novo_download
    rw [hl0]
    dsimp only
    exact esperarLoop_ok amb pasta l0 timeout 1 h

/-- Witness for the amended C6 on the concrete staging history: the
watcher returns the stable `report.pdf` (never the partial
`report.pdf.crdownload`) satisfying all the claimed conditions, and
with every listing succeeding it returns normally. -/
theorem claim_C6_watcher_witness :
    (∃ i arquivo antes depois, 1 ≤ i ∧ i ≤ 30 ∧
        ambExemplo.listar 0 = Except.ok antes ∧ ambExemplo.listar i = Except.ok depois ∧
        arquivo ∈ depois ∧ antes.contains arquivo = false ∧
        "staging/report.pdf" = pathJoin "staging" arquivo ∧
        termina arquivo ".pdf" = true ∧ termina arquivo ".crdownload" = false ∧
        ∃ n, ambExemplo.tamanho1 i arquivo = some n ∧ ambExemplo.tamanho2 i arquivo = some n ∧
          0 < n) ∧
    (∃ r, esperar_e_encontrar_novo_download ambExemplo "staging" 30 = Except.ok r) :=
  ⟨claim_C6_watcher.1 ambExemplo "staging" 30 "staging/report.pdf" rfl,
   claim_C6_watcher.2 ambExemplo "staging" 30 (fun _ => ⟨_, rfl⟩)⟩

/-- One normalization pass distributes over cons as the per-character
action followed by the rest. -/
theorem saidaNorm_cons (c : Char) (l : List Char) :
    saidaNorm (c :: l) = charNorm c ++ saidaNorm l := by
  unfold saidaNorm charNorm
  simp [nfkdLista, List.filter_append]

/-- A character list on which every character is fixed by the
per-character normalization action is fixed by the pass. -/
theorem saidaNorm_fixa (l : List Char) (h : ∀ c ∈ l, charNorm c = [c]) :
    saidaNorm l = l := by
  induction l with
  | nil => rfl
  | cons c r ih =>
    rw [saidaNorm_cons, h c (List.mem_cons_self c r),
      ih (fun d hd => h d (List.mem_cons_of_mem c hd))]
    rfl

/-- On nonempty input the normalizer is the character-list pass. -/
theorem normalizar_eq_saida (texto : String) (h : texto ≠ "") :
    normalizar_texto texto = String.mk (saidaNorm texto.data) := by
  unfold normalizar_texto saidaNorm
  rw [if_neg h]

/-- A packed character list is the empty string exactly when the list
is empty. -/
theorem mk_eq_vazia (l : List Char) : String.mk l = "" ↔ l = [] := by
  constructor
  · intro h
    have h2 := congrArg String.data h
    simpa using h2
  · intro h
    rw [h]

/-- Claim C9 (counterexample): normalization is not idempotent on all
text: the feminine ordinal indicator U+00AA has no uppercase mapping
and NFKD-decomposes to the lowercase letter `a`, so one pass yields
`"a"` while a second pass uppercases it to `"A"`. -/
theorem claim_C9_counterexample :
    normalizar_texto (normalizar_texto "ª") ≠ normalizar_texto "ª" ∧
    normalizar_texto "ª" = "a" := by
  decide

/-- Claim C9 (amended): on null or empty input the normalizer returns
the empty value without raising, and it is idempotent on every text
whose normalized form is fixed character-by-character by the
normalization action — in particular on all text over unaccented or
accented Latin letters, digits and spaces — though not on compatibility
characters that decompose to lowercase letters. -/
theorem claim_C9_amended :
    normalizar_texto_py none = "" ∧ normalizar_texto "" = "" ∧
    (∀ texto : String,
        (∀ c ∈ (normalizar_texto texto).data, charNorm c = [c]) →
        normalizar_texto (normalizar_texto texto) = normalizar_texto texto) := by
  refine ⟨rfl, rfl, ?_⟩
  intro texto h
  by_cases h0 : texto = ""
  · rw [h0]
    decide
  · rw [normalizar_eq_saida texto h0] at h ⊢
    by_cases hs : saidaNorm texto.data = []
    · rw [hs]
      rfl
    · rw [normalizar_eq_saida (String.mk (saidaNorm texto.data))
        (fun hx => hs ((mk_eq_vazia (saidaNorm texto.data)).mp hx))]
      have hdata : (String.mk (saidaNorm texto.data)).data = saidaNorm texto.data := rfl
      rw [hdata]
      rw [saidaNorm_fixa (saidaNorm texto.data) (fun c hc => h c hc)]

/-- Witness for the amended C9: the accented configured keyword
normalizes to a fixed point, on which a second pass changes nothing. -/
theorem claim_C9_amended_witness :
    normalizar_texto (normalizar_texto "Gestão 123") = normalizar_texto "Gestão 123" :=
  claim_C9_amended.2.2 "Gestão 123" (by decide)
